import Mathlib

/-!
Verification of the simulation-api Monte Carlo engine.

The Python routes (src/app/routes/distributions.py, simulations.py) are
shallowly embedded over ℚ. A numpy `Generator` is modelled by the `RNG`
structure: an abstract family of draw functions indexed by a running call
counter, so that one shared generator with interleaved calls becomes
explicit counter threading. HTTPException(400, detail) is modelled as
`Except.error detail`; the unboundedly recursive truncated-normal sampler
takes explicit fuel, `none` standing for a run that has not terminated
within the fuel.

The helpers imported from `app.utils.utils` (is_triangular, is_percent,
determine_distribution, generate_stats) are not part of the available
sources; they are modelled from the specification and marked as such.
-/

/-- Abstract pseudo-random generator: each field models one numpy
`Generator` method; the final `ℕ` argument is the index of the call in the
stream of calls made on this generator instance. -/
structure RNG where
  normal : ℚ → ℚ → ℕ → ℚ
  uniform : ℚ → ℚ → ℕ → ℚ
  triangular : ℚ → ℚ → ℚ → ℕ → ℚ
  random : ℕ → ℚ
  choiceIdx : ℕ → ℕ

/-- Modelled from the spec: `is_triangular` of app/utils/utils.py (absent from
the sources), per §4.1 and §6 — min ≤ mode ≤ max and min < max. -/
def is_triangular (mn c mx : ℚ) : Prop :=
  mn ≤ c ∧ c ≤ mx ∧ mn < mx

instance (mn c mx : ℚ) : Decidable (is_triangular mn c mx) := by
  unfold is_triangular; exact inferInstance

/-- Modelled from the spec: `is_percent` of app/utils/utils.py (absent from
the sources), per §7 — a rate parameter must lie in [0, 1]. -/
def is_percent (x : ℚ) : Prop :=
  0 ≤ x ∧ x ≤ 1

instance (x : ℚ) : Decidable (is_percent x) := by
  unfold is_percent; exact inferInstance

/-- Modelled from the spec: `determine_distribution` of app/utils/utils.py
(absent from the sources), per the §4.1 classification rules in priority
order; `none` is Invalid. -/
def determine_distribution (mn mean mx sd : ℚ) : Option String :=
  if sd = 0 ∧ mn ≤ mean ∧ mean ≤ mx ∧ mn < mx then some "triangular"
  else if mn = 0 ∧ mx = 0 ∧ 0 < sd then some "normal"
  else if 0 < sd ∧ mn ≤ mean ∧ mean ≤ mx ∧ mn < mx then some "truncated normal"
  else if mean = 0 ∧ sd = 0 ∧ mn < mx then some "uniform"
  else none

/-- The recursive rejection sampler `truncated_normal(min, mean, max, sd)` as
written in distributions.py lines 57–61 and simulations.py lines 159–163 and
296–300: draw `rng.normal(mean, sd)`; if the draw falls outside [min, max],
recurse — with the arguments transposed as in the source:
`truncated_normal(min, max, mean, sd)`. Fuel bounds the recursion depth;
the result carries the next call-counter. -/
def tnSample (rng : RNG) : ℕ → ℕ → ℚ → ℚ → ℚ → ℚ → Option (ℚ × ℕ)
  | 0, _, _, _, _, _ => none
  | fuel + 1, k, mn, mean, mx, sd =>
    if rng.normal mean sd k < mn ∨ rng.normal mean sd k > mx then
      tnSample rng fuel (k + 1) mn mx mean sd
    else
      some (rng.normal mean sd k, k + 1)

/-- Modelled from the spec: the rejection sampler §4.2 describes in words —
repeatedly draw from Normal(mean, sd) with the ORIGINAL mean, discarding
out-of-[min, max] draws. Stated only to be compared with `tnSample`. -/
def tnSampleSpec (rng : RNG) : ℕ → ℕ → ℚ → ℚ → ℚ → ℚ → Option (ℚ × ℕ)
  | 0, _, _, _, _, _ => none
  | fuel + 1, k, mn, mean, mx, sd =>
    if rng.normal mean sd k < mn ∨ rng.normal mean sd k > mx then
      tnSampleSpec rng fuel (k + 1) mn mean mx sd
    else
      some (rng.normal mean sd k, k + 1)

/-- A list comprehension of `n` successive `truncated_normal` samples,
threading the call counter; the parameters are those of the outer call. -/
def tnList (rng : RNG) (fuel : ℕ) (mn mean mx sd : ℚ) : ℕ → ℕ → Option (List ℚ × ℕ)
  | k, 0 => some ([], k)
  | k, n + 1 =>
    match tnSample rng fuel k mn mean mx sd with
    | none => none
    | some (v, k') =>
      match tnList rng fuel mn mean mx sd k' n with
      | none => none
      | some (vs, k'') => some (v :: vs, k'')

/-- `rng.normal(mean, sd, n)` starting at call counter `k`. -/
def normalList (rng : RNG) (mean sd : ℚ) (k n : ℕ) : List ℚ :=
  (List.range n).map fun i => rng.normal mean sd (k + i)

/-- `rng.uniform(lo, hi, n)` starting at call counter `k`. -/
def uniformList (rng : RNG) (lo hi : ℚ) (k n : ℕ) : List ℚ :=
  (List.range n).map fun i => rng.uniform lo hi (k + i)

/-- `rng.triangular(mn, mode, mx, n)` starting at call counter `k`. -/
def triangularList (rng : RNG) (mn mode mx : ℚ) (k n : ℕ) : List ℚ :=
  (List.range n).map fun i => rng.triangular mn mode mx (k + i)

/-- Insert into an ascending list, keeping it sorted. -/
def insertAsc (x : ℚ) : List ℚ → List ℚ
  | [] => [x]
  | y :: ys => if x ≤ y then x :: y :: ys else y :: insertAsc x ys

/-- Ascending insertion sort. -/
def sortAsc (xs : List ℚ) : List ℚ :=
  xs.foldr insertAsc []

/-- Modelled from the spec: the percentile of §4.3/§4.4 (`np.percentile`,
used by `generate_stats` of app/utils/utils.py, absent from the sources) —
linear interpolation between the two order statistics around rank
(n-1)·pct/100. -/
def percentile (pct : ℕ) (xs : List ℚ) : ℚ :=
  let s := sortAsc xs
  let n := s.length
  if n = 0 then 0
  else
    let pos := pct * (n - 1)
    let i := pos / 100
    let lo := s.getD i 0
    let hi := s.getD (Nat.min (i + 1) (n - 1)) 0
    lo + ((pos % 100 : ℕ) : ℚ) / 100 * (hi - lo)

/-- The seven summary fields every simulation route returns, in the order
its `generate_stats(...).values()` unpacking produces them. -/
structure StatsSummary where
  meanValue : ℚ
  meanStandardError : ℚ
  meanLowerCI : ℚ
  meanUpperCI : ℚ
  pLoseMoneyLowerCI : ℚ
  pLoseMoneyUpperCI : ℚ
  valueAtRisk : ℚ

/-- Modelled from the spec: `generate_stats` of app/utils/utils.py (absent
from the sources), per §4.3. `sq` is an abstract square root (real square
roots are not rational); 1.96 is 49/25. valueAtRisk is the 5th percentile
negated and floored at 0. -/
def generate_stats (sq : ℚ → ℚ) (xs : List ℚ) : StatsSummary :=
  let n := xs.length
  let nq : ℚ := n
  let mean := if n = 0 then 0 else xs.sum / nq
  let sampleSD := if n ≤ 1 then 0 else sq ((xs.map (fun x => (x - mean) ^ 2)).sum / (nq - 1))
  let se := if n = 0 then 0 else sampleSD / sq nq
  let p := if n = 0 then 0 else ((xs.filter (fun x => x < 0)).length : ℚ) / nq
  let halfWidth := 49 / 25 * sq (p * (1 - p) / nq)
  { meanValue := mean
    meanStandardError := se
    meanLowerCI := mean - 49 / 25 * se
    meanUpperCI := mean + 49 / 25 * se
    pLoseMoneyLowerCI := max 0 (p - halfWidth)
    pLoseMoneyUpperCI := min 1 (p + halfWidth)
    valueAtRisk := max 0 (-(percentile 5 xs)) }

/-- Detail string of the 400 raised by simulation_production when no demand
distribution matches (simulations.py lines 182–186). -/
def prodDistErr : String :=
  "The provided inputs must follow one of these distributions: 1) truncated normal 2) triangular 3) uniform 4) normal"

/-- Detail string of the 400 raised by simulation_cash_flow when no
distribution matches (simulations.py lines 316–320). -/
def cashFlowDistErr : String :=
  "Cash flows must follow one of the following distributions: triangular, truncated normal, uniform, or normal."

/-- Detail string of the 400 raised by simulation_cash_flow on
periodsPerYear <= 0 (simulations.py lines 287–291). -/
def periodsErr : String := "periodsPerYear must be greater than 0."

/-- Detail string of the 400 raised by distribution_truncated_normal
(distributions.py lines 212–216). -/
def truncNormErr : String :=
  "Please ensure the following: 1) distMin <= distMean <= distMax 2) distMin < distMax 3) distSD > 0"

/-- Detail strings of the marketing route's three validation errors
(simulations.py lines 391–406). -/
def retentionErr : String := "retentionRate must be between 0 and 1."

def discountErr : String := "discountRate must be between 0 and 1."

def stDevErr : String := "stDev must be greater than 0."

/-- simulation_production's demand-distribution selection (simulations.py
lines 165–186): truncated normal, then triangular, then uniform, then
normal — the normal branch passes demandMax (not demandMode) as the mean.
Returns the 1000 demand draws and the next call counter. -/
def productionDemandDist (rng : RNG) (fuel : ℕ) (demandMin demandMode demandMax demandSD : ℚ) :
    Option (Except String (List ℚ × ℕ)) :=
  if is_triangular demandMin demandMode demandMax ∧ 0 < demandSD then
    (tnList rng fuel demandMin demandMode demandMax demandSD 0 1000).map .ok
  else if is_triangular demandMin demandMode demandMax ∧ demandSD = 0 then
    some (.ok (triangularList rng demandMin demandMode demandMax 0 1000, 1000))
  else if demandMode = 0 ∧ demandSD = 0 ∧ demandMin < demandMax then
    some (.ok (uniformList rng demandMin demandMax 0 1000, 1000))
  else if demandMin = 0 ∧ demandMax = 0 ∧ 0 < demandSD then
    some (.ok (normalList rng demandMax demandSD 0 1000, 1000))
  else some (.error prodDistErr)

/-- One production trial's profit (simulations.py lines 189–198). -/
def prodProfit (demand q unitCost unitPrice salvagePrice fixedCost : ℚ) : ℚ :=
  let sold := min q demand
  let salvaged := q - sold
  sold * unitPrice + salvaged * salvagePrice - q * unitCost - fixedCost

/-- The 1000 production trials: each draws `rng.choice(demand_distribution)`
at the running call counter. Recursion on the trial count. -/
def productionTrials (rng : RNG) (dist : List ℚ) (q uc up sp fc : ℚ) : ℕ → ℕ → List ℚ
  | 0, _ => []
  | n + 1, k =>
    prodProfit (dist.getD (rng.choiceIdx k % dist.length) 0) q uc up sp fc ::
      productionTrials rng dist q uc up sp fc n (k + 1)

/-- simulation_production (simulations.py lines 92–223): demand distribution,
1000 trials, then generate_stats. -/
def productionCore (rng : RNG) (sq : ℚ → ℚ) (fuel : ℕ)
    (unitCost unitPrice salvagePrice demandMin demandMode demandMax demandSD fixedCost
      productionQuantity : ℚ) : Option (Except String (List ℚ × StatsSummary)) :=
  match productionDemandDist rng fuel demandMin demandMode demandMax demandSD with
  | none => none
  | some (.error e) => some (.error e)
  | some (.ok (dist, k)) =>
    let profits := productionTrials rng dist productionQuantity unitCost unitPrice salvagePrice
      fixedCost 1000 k
    some (.ok (profits, generate_stats sq profits))

/-- simulation_cash_flow's distribution selection (simulations.py lines
302–320): triangular, then truncated normal, then uniform, then normal —
the normal branch uses the given mean. -/
def cashFlowDist (rng : RNG) (fuel : ℕ) (mn mean mx sd : ℚ) :
    Option (Except String (List ℚ × ℕ)) :=
  if is_triangular mn mean mx ∧ sd = 0 then
    some (.ok (triangularList rng mn mean mx 0 1000, 1000))
  else if is_triangular mn mean mx ∧ 0 < sd then
    (tnList rng fuel mn mean mx sd 0 1000).map .ok
  else if mean = 0 ∧ sd = 0 ∧ mn < mx then
    some (.ok (uniformList rng mn mx 0 1000, 1000))
  else if mn = 0 ∧ mx = 0 ∧ 0 < sd then
    some (.ok (normalList rng mean sd 0 1000, 1000))
  else some (.error cashFlowDistErr)

/-- `rng.choice(distribution, p).sum()`: `p` picks at consecutive call
counters, summed. Recursion on the number of picks. -/
def cashChoiceSum (rng : RNG) (dist : List ℚ) : ℕ → ℕ → ℚ
  | 0, _ => 0
  | j + 1, k => dist.getD (rng.choiceIdx k % dist.length) 0 + cashChoiceSum rng dist j (k + 1)

/-- The 1000 cash-flow trials, each `rng.choice(dist, p).sum() - fixedCost`. -/
def cashFlowTrials (rng : RNG) (dist : List ℚ) (p : ℕ) (fc : ℚ) : ℕ → ℕ → List ℚ
  | 0, _ => []
  | n + 1, k => (cashChoiceSum rng dist p k - fc) :: cashFlowTrials rng dist p fc n (k + p)

/-- simulation_cash_flow (simulations.py lines 230–349): the periodsPerYear
validation precedes generator creation and every draw. -/
def cashFlowCore (rng : RNG) (sq : ℚ → ℚ) (fuel : ℕ) (periodsPerYear : ℤ)
    (fixedCost mn mean mx sd : ℚ) : Option (Except String (List ℚ × StatsSummary)) :=
  if periodsPerYear ≤ 0 then some (.error periodsErr)
  else
    match cashFlowDist rng fuel mn mean mx sd with
    | none => none
    | some (.error e) => some (.error e)
    | some (.ok (dist, k)) =>
      let flows := cashFlowTrials rng dist periodsPerYear.toNat fixedCost 1000 k
      some (.ok (flows, generate_stats sq flows))

/-- distribution_random (distributions.py lines 16–77): classify with
determine_distribution, then draw 1000 values. -/
def distributionRandomCore (rng : RNG) (fuel : ℕ) (mn mean mx sd : ℚ) :
    Option (Except String (String × List ℚ)) :=
  let d := determine_distribution mn mean mx sd
  if d = some "normal" then some (.ok ("normal", normalList rng mean sd 0 1000))
  else if d = some "uniform" then some (.ok ("uniform", uniformList rng mn mx 0 1000))
  else if d = some "triangular" then some (.ok ("triangular", triangularList rng mn mean mx 0 1000))
  else if d = some "truncated normal" then
    (tnList rng fuel mn mean mx sd 0 1000).map fun p => .ok ("truncated normal", p.1)
  else some (.error "unknown distribution")

/-- simulation_random_values (simulations.py lines 22–85): the same body as
distribution_random, embedded from its own source. -/
def simulationRandomValuesCore (rng : RNG) (fuel : ℕ) (mn mean mx sd : ℚ) :
    Option (Except String (String × List ℚ)) :=
  let d := determine_distribution mn mean mx sd
  if d = some "normal" then some (.ok ("normal", normalList rng mean sd 0 1000))
  else if d = some "uniform" then some (.ok ("uniform", uniformList rng mn mx 0 1000))
  else if d = some "triangular" then some (.ok ("triangular", triangularList rng mn mean mx 0 1000))
  else if d = some "truncated normal" then
    (tnList rng fuel mn mean mx sd 0 1000).map fun p => .ok ("truncated normal", p.1)
  else some (.error "unknown distribution")

/-- distribution_truncated_normal (distributions.py lines 188–233): after
validation, the 1000 samples are produced by
`truncated_normal(distMin, distMax, distMean, distSD)` — distMax passed in
the mean position and distMean in the max position, as at line 230. -/
def distTruncatedNormalCore (rng : RNG) (fuel : ℕ) (distMin distMean distMax distSD : ℚ) :
    Option (Except String (List ℚ)) :=
  if ¬ is_triangular distMin distMean distMax ∨ distSD ≤ 0 then some (.error truncNormErr)
  else (tnList rng fuel distMin distMax distMean distSD 0 1000).map fun p => .ok p.1

/-- One marketing trial's per-year loop (simulations.py lines 422–436): at
call counter `k`, `rng.random()` decides retention; the year's profit is
drawn from Normal(meanProfit, |stDev·meanProfit|) at counter `k+1`; the loop
stops after the first churned year. Returns the realized profits and the
next counter. -/
def marketingYears (rng : RNG) (r s : ℚ) : List ℚ → ℕ → List ℚ × ℕ
  | [], k => ([], k)
  | m :: rest, k =>
    if rng.random k ≤ r then
      let t := marketingYears rng r s rest (k + 2)
      (rng.normal m |s * m| (k + 1) :: t.1, t.2)
    else ([rng.normal m |s * m| (k + 1)], k + 2)

/-- numpy_financial's npv: cash flows discounted from index 0. -/
def npfNpv (d : ℚ) : List ℚ → ℚ
  | [] => 0
  | c :: rest => c + npfNpv d rest / (1 + d)

/-- One marketing trial (simulations.py lines 412–447): NPV of the realized
profit stream with a leading 0 cash flow, and years loyal. -/
def marketingTrial (rng : RNG) (r d s : ℚ) (mps : List ℚ) (k : ℕ) : (ℚ × ℕ) × ℕ :=
  let run := marketingYears rng r s mps k
  ((npfNpv d (0 :: run.1), run.1.length), run.2)

/-- The 1000 marketing trials, threading the call counter. -/
def marketingTrials (rng : RNG) (r d s : ℚ) (mps : List ℚ) : ℕ → ℕ → List (ℚ × ℕ)
  | 0, _ => []
  | n + 1, k =>
    let t := marketingTrial rng r d s mps k
    t.1 :: marketingTrials rng r d s mps n t.2

/-- The marketing simulation past validation (simulations.py lines 408–460):
mean NPV and mean years loyal over 1000 trials. -/
def marketingBody (rng : RNG) (r d s mp1 mp2 mp3 mp4 mp5 : ℚ) : ℚ × ℚ :=
  let results := marketingTrials rng r d s [mp1, mp2, mp3, mp4, mp5] 1000 0
  ((results.map Prod.fst).sum / 1000, (results.map fun t => (t.2 : ℚ)).sum / 1000)

/-- marketing (simulations.py lines 356–460): validation — retentionRate and
discountRate must be percentages, stDev is rejected exactly when negative —
then the simulation. -/
def marketingCore (rng : RNG) (r d s mp1 mp2 mp3 mp4 mp5 : ℚ) : Except String (ℚ × ℚ) :=
  if ¬ is_percent r then .error retentionErr
  else if ¬ is_percent d then .error discountErr
  else if s < 0 then .error stDevErr
  else .ok (marketingBody rng r d s mp1 mp2 mp3 mp4 mp5)

/-- §4.1 rule 1, Triangular: sd = 0 and min ≤ center ≤ max and min < max. -/
def ruleTriangular (mn c mx sd : ℚ) : Bool :=
  decide (sd = 0 ∧ mn ≤ c ∧ c ≤ mx ∧ mn < mx)

/-- §4.1 rule 2, Normal: min = 0 and max = 0 and sd > 0. -/
def ruleNormal (mn c mx sd : ℚ) : Bool :=
  decide (mn = 0 ∧ mx = 0 ∧ 0 < sd)

/-- §4.1 rule 3, Truncated-normal: sd > 0 and min ≤ center ≤ max and
min < max. -/
def ruleTruncatedNormal (mn c mx sd : ℚ) : Bool :=
  decide (0 < sd ∧ mn ≤ c ∧ c ≤ mx ∧ mn < mx)

/-- §4.1 rule 4, Uniform: center = 0 and sd = 0 and min < max. -/
def ruleUniform (mn c mx sd : ℚ) : Bool :=
  decide (c = 0 ∧ sd = 0 ∧ mn < mx)

/-- An HTTP invocation of distribution_random: whatever generator state the
process ambiently holds, the handler creates its own generator from the
fixed seed 42 (distributions.py line 54) and ignores the ambient one. -/
def distributionRandomEndpoint (mkRng : ℕ → RNG) (ambient : RNG) (fuel : ℕ)
    (mn mean mx sd : ℚ) : Option (Except String (String × List ℚ)) :=
  distributionRandomCore (mkRng 42) fuel mn mean mx sd

/-- An HTTP invocation of simulation_production: a fresh generator seeded 42
(simulations.py line 156), the ambient state unused. -/
def productionEndpoint (mkRng : ℕ → RNG) (ambient : RNG) (sq : ℚ → ℚ) (fuel : ℕ)
    (unitCost unitPrice salvagePrice demandMin demandMode demandMax demandSD fixedCost
      productionQuantity : ℚ) : Option (Except String (List ℚ × StatsSummary)) :=
  productionCore (mkRng 42) sq fuel unitCost unitPrice salvagePrice demandMin demandMode demandMax
    demandSD fixedCost productionQuantity

/-- Detail string of the 400 raised by distribution_triangular
(distributions.py lines 105–109). -/
def triErr : String :=
  "Please ensure the following: 1) distMin <= distMode <= distMax 2) distMin < distMax"

/-- Detail string of the 400 raised by distribution_uniform
(distributions.py lines 138–142). -/
def uniErr : String := "Please ensure the following: distMin < distMax"

/-- Detail string of the 400 raised by distribution_normal
(distributions.py lines 169–173). -/
def normErr : String := "Please ensure the following: distSD > 0"

/-- distribution_triangular (distributions.py lines 84–112): validate with
is_triangular, then 1000 triangular draws. -/
def distTriangularCore (rng : RNG) (distMin distMode distMax : ℚ) : Except String (List ℚ) :=
  if ¬ is_triangular distMin distMode distMax then .error triErr
  else .ok (triangularList rng distMin distMode distMax 0 1000)

/-- distribution_uniform (distributions.py lines 119–145): integer-typed
query parameters, validated by distMin < distMax, then 1000 uniform draws. -/
def distUniformCore (rng : RNG) (distMin distMax : ℤ) : Except String (List ℚ) :=
  if distMin ≥ distMax then .error uniErr
  else .ok (uniformList rng (distMin : ℚ) (distMax : ℚ) 0 1000)

/-- distribution_normal (distributions.py lines 152–181): validated by
distSD > 0, then 1000 normal draws. -/
def distNormalCore (rng : RNG) (distMean distSD : ℚ) : Except String (List ℚ) :=
  if distSD ≤ 0 then .error normErr
  else .ok (normalList rng distMean distSD 0 1000)

/-- An HTTP invocation of simulation_random_values: a fresh generator seeded
42 (simulations.py line 62), the ambient state unused. -/
def simulationRandomValuesEndpoint (mkRng : ℕ → RNG) (ambient : RNG) (fuel : ℕ)
    (mn mean mx sd : ℚ) : Option (Except String (String × List ℚ)) :=
  simulationRandomValuesCore (mkRng 42) fuel mn mean mx sd

/-- An HTTP invocation of distribution_triangular: a fresh generator seeded
42 (distributions.py line 103), the ambient state unused. -/
def distTriangularEndpoint (mkRng : ℕ → RNG) (ambient : RNG)
    (distMin distMode distMax : ℚ) : Except String (List ℚ) :=
  distTriangularCore (mkRng 42) distMin distMode distMax

/-- An HTTP invocation of distribution_uniform: a fresh generator seeded 42
(distributions.py line 136), the ambient state unused. -/
def distUniformEndpoint (mkRng : ℕ → RNG) (ambient : RNG) (distMin distMax : ℤ) :
    Except String (List ℚ) :=
  distUniformCore (mkRng 42) distMin distMax

/-- An HTTP invocation of distribution_normal: a fresh generator seeded 42
(distributions.py line 176), the ambient state unused. -/
def distNormalEndpoint (mkRng : ℕ → RNG) (ambient : RNG) (distMean distSD : ℚ) :
    Except String (List ℚ) :=
  distNormalCore (mkRng 42) distMean distSD

/-- An HTTP invocation of distribution_truncated_normal: a fresh generator
seeded 42 (distributions.py line 219), the ambient state unused. -/
def distTruncatedNormalEndpoint (mkRng : ℕ → RNG) (ambient : RNG) (fuel : ℕ)
    (distMin distMean distMax distSD : ℚ) : Option (Except String (List ℚ)) :=
  distTruncatedNormalCore (mkRng 42) fuel distMin distMean distMax distSD

/-- An HTTP invocation of simulation_cash_flow: a fresh generator seeded 42
(simulations.py line 293), the ambient state unused. -/
def cashFlowEndpoint (mkRng : ℕ → RNG) (ambient : RNG) (sq : ℚ → ℚ) (fuel : ℕ)
    (periodsPerYear : ℤ) (fixedCost mn mean mx sd : ℚ) :
    Option (Except String (List ℚ × StatsSummary)) :=
  cashFlowCore (mkRng 42) sq fuel periodsPerYear fixedCost mn mean mx sd

/-- An HTTP invocation of marketing: a fresh generator seeded 42
(simulations.py line 409), the ambient state unused. -/
def marketingEndpoint (mkRng : ℕ → RNG) (ambient : RNG) (r d s mp1 mp2 mp3 mp4 mp5 : ℚ) :
    Except String (ℚ × ℚ) :=
  marketingCore (mkRng 42) r d s mp1 mp2 mp3 mp4 mp5

/-- A generator every method of which returns 0: a concrete stream for
witnesses. -/
def rngZero : RNG where
  normal := fun _ _ _ => 0
  uniform := fun _ _ _ => 0
  triangular := fun _ _ _ _ => 0
  random := fun _ => 0
  choiceIdx := fun _ => 0

/-- A generator whose normal draws return the mean they were asked for:
reveals which mean argument a sampler passes. -/
def rngMean : RNG where
  normal := fun m _ _ => m
  uniform := fun _ _ _ => 0
  triangular := fun _ _ _ _ => 0
  random := fun _ => 0
  choiceIdx := fun _ => 0

/-- A concrete stream whose first normal draw (call 0) is 30, whose second
(call 1) is 12 under the mean it is asked for, and whose later draws return
the requested mean: distinguishes the implemented rejection sampler from the
specified one. -/
def rngProbe : RNG where
  normal := fun m _ k => if k = 0 then 30 else if k = 1 then m - 12 else m
  uniform := fun _ _ _ => 0
  triangular := fun _ _ _ _ => 0
  random := fun _ => 0
  choiceIdx := fun _ => 0

/-- The first demand sample of a successful demand-distribution result
(999 on the error and non-terminating paths, which no theorem relies on). -/
def demandHead (r : Option (Except String (List ℚ × ℕ))) : ℚ :=
  match r with
  | some (.ok (l, _)) => l.headI
  | _ => 999

/-- Any value the rejection sampler returns is at least `mn` and at most one
of the two upper parameters: the acceptance interval alternates between
[mn, b] and [mn, a] as the recursion transposes the arguments. -/
theorem tnSample_bounds (rng : RNG) : ∀ (fuel k : ℕ) (mn a b sd v : ℚ) (k' : ℕ),
    tnSample rng fuel k mn a b sd = some (v, k') → mn ≤ v ∧ (v ≤ a ∨ v ≤ b) := by
  intro fuel
  induction fuel with
  | zero => intro k mn a b sd v k' h; simp [tnSample] at h
  | succ fuel ih =>
    intro k mn a b sd v k' h
    rw [tnSample] at h
    by_cases hc : rng.normal a sd k < mn ∨ rng.normal a sd k > b
    · rw [if_pos hc] at h
      have hb := ih (k + 1) mn b a sd v k' h
      exact ⟨hb.1, hb.2.symm⟩
    · rw [if_neg hc] at h
      push_neg at hc
      simp only [Option.some.injEq, Prod.mk.injEq] at h
      obtain ⟨hv, _⟩ := h
      subst hv
      exact ⟨hc.1, Or.inr hc.2⟩

/-- Every member of a `tnList` batch obeys the same bound as a single
sample. -/
theorem tnList_mem_bounds (rng : RNG) (fuel : ℕ) (mn a b sd : ℚ) :
    ∀ (n k : ℕ) (vs : List ℚ) (k' : ℕ), tnList rng fuel mn a b sd k n = some (vs, k') →
      ∀ v ∈ vs, mn ≤ v ∧ (v ≤ a ∨ v ≤ b) := by
  intro n
  induction n with
  | zero =>
    intro k vs k' h
    simp only [tnList, Option.some.injEq, Prod.mk.injEq] at h
    rw [← h.1]
    intro v hv
    simp at hv
  | succ n ih =>
    intro k vs k' h
    rw [tnList] at h
    split at h
    · simp at h
    · rename_i v1 k1 heq1
      split at h
      · simp at h
      · rename_i vs1 k2 heq2
        simp only [Option.some.injEq, Prod.mk.injEq] at h
        obtain ⟨hvs, _⟩ := h
        rw [← hvs]
        intro v hv
        rcases List.mem_cons.mp hv with hv | hv
        · exact hv ▸ tnSample_bounds rng fuel k mn a b sd v1 k1 heq1
        · exact ih k1 vs1 k2 heq2 v hv

/-- C1: for valid truncated-normal parameters (min ≤ mean ≤ max, min < max,
sd > 0) every value the rejection sampler returns on a terminating run lies
in [min, max], and every one of the 1000 values the
/api/distributions/truncated_normal endpoint returns — whose call site
passes distMax in the mean position and distMean in the max position — lies
in [min, max] as well. -/
theorem truncated_normal_within_bounds (rng : RNG) (fuel : ℕ) (mn mean mx sd : ℚ)
    (h1 : mn ≤ mean) (h2 : mean ≤ mx) (h3 : mn < mx) (h4 : 0 < sd) :
    (∀ k v k', tnSample rng fuel k mn mean mx sd = some (v, k') → mn ≤ v ∧ v ≤ mx) ∧
    (∀ vs, distTruncatedNormalCore rng fuel mn mean mx sd = some (.ok vs) →
      ∀ v ∈ vs, mn ≤ v ∧ v ≤ mx) := by
  constructor
  · intro k v k' h
    have hb := tnSample_bounds rng fuel k mn mean mx sd v k' h
    exact ⟨hb.1, hb.2.elim (fun hm => hm.trans h2) id⟩
  · intro vs h
    rw [distTruncatedNormalCore] at h
    rw [if_neg (by push_neg; refine ⟨?_, h4⟩; unfold is_triangular; exact ⟨h1, h2, h3⟩)] at h
    cases htl : tnList rng fuel mn mx mean sd 0 1000 with
    | none => rw [htl] at h; simp at h
    | some p =>
      rw [htl] at h
      simp only [Option.map_some', Option.some.injEq, Except.ok.injEq] at h
      intro v hv
      have hb := tnList_mem_bounds rng fuel mn mx mean sd 1000 0 p.1 p.2 (by rw [htl]) v
        (h ▸ hv)
      exact ⟨hb.1, hb.2.elim id (fun hm => hm.trans h2)⟩

/-- Witness for C1: with the all-zero stream and parameters (0, 1, 2, 1) the
sampler terminates at once with 0, which the theorem places in [0, 2]. -/
theorem truncated_normal_within_bounds_witness :
    (0:ℚ) ≤ 1 ∧ (1:ℚ) ≤ 2 ∧ (0:ℚ) < 2 ∧ (0:ℚ) < 1 ∧
    tnSample rngZero 1 0 0 1 2 1 = some (0, 1) ∧ ((0:ℚ) ≤ 0 ∧ (0:ℚ) ≤ 2) :=
  ⟨by norm_num, by norm_num, by norm_num, by norm_num, by norm_num [tnSample, rngZero],
    (truncated_normal_within_bounds rngZero 1 0 1 2 1 (by norm_num) (by norm_num) (by norm_num)
      (by norm_num)).1 0 0 1 (by norm_num [tnSample, rngZero])⟩

/-- C2 counterexample: on the concrete stream `rngProbe` with parameters
(min 0, mean 10, max 20, sd 1) the implemented sampler returns 8 after two
draws — the accepted retry was drawn with max (20) in the mean position —
while a sampler that redraws from Normal(mean, sd) as the claim states
(`tnSampleSpec`) returns 10 after three draws. -/
theorem truncated_normal_not_spec_rejection :
    tnSample rngProbe 3 0 0 10 20 1 = some (8, 2) ∧
    tnSampleSpec rngProbe 3 0 0 10 20 1 = some (10, 3) ∧
    (((8:ℚ), (2:ℕ)) ≠ ((10:ℚ), (3:ℕ))) := by
  refine ⟨?_, ?_, by norm_num⟩
  · norm_num [tnSample, rngProbe]
  · norm_num [tnSampleSpec, rngProbe]

/-- C2 amended: the sampler is rejection sampling with the arguments
transposed at every recursive call, so each value it returns is either a
draw from Normal(mean, sd) accepted within [min, max] (even depths) or a
draw from Normal(max, sd) accepted within [min, mean] (odd depths) — not
every retry redraws from Normal(mean, sd). -/
theorem truncated_normal_alternating_provenance (rng : RNG) :
    ∀ (fuel k : ℕ) (mn mean mx sd v : ℚ) (k' : ℕ),
    tnSample rng fuel k mn mean mx sd = some (v, k') →
    ∃ j, (v = rng.normal mean sd j ∧ mn ≤ v ∧ v ≤ mx) ∨
      (v = rng.normal mx sd j ∧ mn ≤ v ∧ v ≤ mean) := by
  intro fuel
  induction fuel with
  | zero => intro k mn mean mx sd v k' h; simp [tnSample] at h
  | succ fuel ih =>
    intro k mn mean mx sd v k' h
    rw [tnSample] at h
    by_cases hc : rng.normal mean sd k < mn ∨ rng.normal mean sd k > mx
    · rw [if_pos hc] at h
      obtain ⟨j, hj⟩ := ih (k + 1) mn mx mean sd v k' h
      exact ⟨j, hj.symm⟩
    · rw [if_neg hc] at h
      push_neg at hc
      simp only [Option.some.injEq, Prod.mk.injEq] at h
      obtain ⟨hv, _⟩ := h
      exact ⟨k, Or.inl ⟨hv.symm, hv ▸ hc.1, hv ▸ hc.2⟩⟩

/-- Witness for C2's amended theorem: the all-zero stream with parameters
(0, 1, 2, 1) returns 0, and the theorem exhibits it as an accepted draw. -/
theorem truncated_normal_alternating_provenance_witness :
    ∃ j, ((0:ℚ) = rngZero.normal 1 1 j ∧ (0:ℚ) ≤ 0 ∧ (0:ℚ) ≤ 2) ∨
      ((0:ℚ) = rngZero.normal 2 1 j ∧ (0:ℚ) ≤ 0 ∧ (0:ℚ) ≤ 1) :=
  truncated_normal_alternating_provenance rngZero 1 0 0 1 2 1 0 1
    (by norm_num [tnSample, rngZero])

/-- C3 counterexample: with unitCost 0, unitPrice 10, salvagePrice 0,
demand (100, 100, 100), demandSD 0, fixedCost 0, productionQuantity 100 the
production route does not succeed: `is_triangular` requires
demandMin < demandMax, so the degenerate demand tuple matches no branch and
the route answers the 400 invalid-distribution error — no trial is run. -/
theorem production_fixed_demand_rejected_cex :
    productionCore rngZero (fun _ => 0) 1 0 10 0 100 100 100 0 0 100 =
      some (.error prodDistErr) := by
  norm_num [productionCore, productionDemandDist, is_triangular]

/-- C3 amended: for every generator, square root, fuel and unitPrice, the
production call with unitCost 0, salvagePrice 0, fixedCost 0,
productionQuantity 100 and demand (min 100, mode 100, max 100, sd 0) raises
the 400 invalid-distribution error (demandMin < demandMax fails), so no
trial vector is produced; it does not yield 100·unitPrice per trial. -/
theorem production_fixed_demand_rejected (rng : RNG) (sq : ℚ → ℚ) (fuel : ℕ)
    (unitPrice : ℚ) :
    productionCore rng sq fuel 0 unitPrice 0 100 100 100 0 0 100 =
      some (.error prodDistErr) := by
  norm_num [productionCore, productionDemandDist, is_triangular]

/-- C4 counterexample: the tuple (min -1, center 0, max 1, sd 0) satisfies
both the Triangular rule and the Uniform rule of §4.1, so at most one rule
holding for every tuple is false. -/
theorem classification_rules_overlap_cex :
    ruleTriangular (-1) 0 1 0 = true ∧ ruleUniform (-1) 0 1 0 = true ∧
    (ruleTriangular (-1) 0 1 0 && ruleUniform (-1) 0 1 0) = true := by
  refine ⟨?_, ?_, ?_⟩ <;> norm_num [ruleTriangular, ruleUniform]

/-- C4 amended: of the §4.1 rules, every pair except Triangular–Uniform is
mutually exclusive (Triangular and Uniform can hold together, as the tuple
(-1, 0, 1, 0) shows); and the cash-flow route's classifier answers its 400
invalid-distribution error exactly when no rule matches. -/
theorem classification_rules_exclusive_except_tri_uniform (rng : RNG) (fuel : ℕ)
    (mn c mx sd : ℚ) :
    (ruleTriangular mn c mx sd && ruleNormal mn c mx sd) = false ∧
    (ruleTriangular mn c mx sd && ruleTruncatedNormal mn c mx sd) = false ∧
    (ruleNormal mn c mx sd && ruleTruncatedNormal mn c mx sd) = false ∧
    (ruleNormal mn c mx sd && ruleUniform mn c mx sd) = false ∧
    (ruleTruncatedNormal mn c mx sd && ruleUniform mn c mx sd) = false ∧
    (cashFlowDist rng fuel mn c mx sd = some (.error cashFlowDistErr) ↔
      (ruleTriangular mn c mx sd || ruleTruncatedNormal mn c mx sd ||
        ruleUniform mn c mx sd || ruleNormal mn c mx sd) = false) := by
  refine ⟨?_, ?_, ?_, ?_, ?_, ?_⟩
  · rw [ruleTriangular, ruleNormal, ← Bool.decide_and, decide_eq_false_iff_not]
    rintro ⟨⟨h0, -, -, -⟩, -, -, hlt⟩
    linarith
  · rw [ruleTriangular, ruleTruncatedNormal, ← Bool.decide_and, decide_eq_false_iff_not]
    rintro ⟨⟨h0, -, -, -⟩, hlt, -, -, -⟩
    linarith
  · rw [ruleNormal, ruleTruncatedNormal, ← Bool.decide_and, decide_eq_false_iff_not]
    rintro ⟨⟨hmn, hmx, -⟩, -, -, -, hlt⟩
    rw [hmn, hmx] at hlt
    linarith
  · rw [ruleNormal, ruleUniform, ← Bool.decide_and, decide_eq_false_iff_not]
    rintro ⟨⟨-, -, hlt⟩, -, h0, -⟩
    linarith
  · rw [ruleTruncatedNormal, ruleUniform, ← Bool.decide_and, decide_eq_false_iff_not]
    rintro ⟨⟨hlt, -, -, -⟩, -, h0, -⟩
    linarith
  · by_cases hb1 : is_triangular mn c mx ∧ sd = 0
    · have hr : ruleTriangular mn c mx sd = true := by
        rw [ruleTriangular, decide_eq_true_eq]
        obtain ⟨⟨ha, hb, hc⟩, h0⟩ := hb1
        exact ⟨h0, ha, hb, hc⟩
      rw [cashFlowDist, if_pos hb1]
      simp [hr]
    · by_cases hb2 : is_triangular mn c mx ∧ 0 < sd
      · have hr : ruleTruncatedNormal mn c mx sd = true := by
          rw [ruleTruncatedNormal, decide_eq_true_eq]
          obtain ⟨⟨ha, hb, hc⟩, h0⟩ := hb2
          exact ⟨h0, ha, hb, hc⟩
        rw [cashFlowDist, if_neg hb1, if_pos hb2]
        cases htl : tnList rng fuel mn c mx sd 0 1000 with
        | none => simp [hr]
        | some p => simp [hr]
      · by_cases hb3 : c = 0 ∧ sd = 0 ∧ mn < mx
        · have hr : ruleUniform mn c mx sd = true := by
            rw [ruleUniform, decide_eq_true_eq]; exact hb3
          rw [cashFlowDist, if_neg hb1, if_neg hb2, if_pos hb3]
          simp [hr]
        · by_cases hb4 : mn = 0 ∧ mx = 0 ∧ 0 < sd
          · have hr : ruleNormal mn c mx sd = true := by
              rw [ruleNormal, decide_eq_true_eq]; exact hb4
            rw [cashFlowDist, if_neg hb1, if_neg hb2, if_neg hb3, if_pos hb4]
            simp [hr]
          · have hr1 : ruleTriangular mn c mx sd = false := by
              rw [ruleTriangular, decide_eq_false_iff_not]
              rintro ⟨h0, ha, hb, hc⟩
              exact hb1 ⟨⟨ha, hb, hc⟩, h0⟩
            have hr2 : ruleTruncatedNormal mn c mx sd = false := by
              rw [ruleTruncatedNormal, decide_eq_false_iff_not]
              rintro ⟨h0, ha, hb, hc⟩
              exact hb2 ⟨⟨ha, hb, hc⟩, h0⟩
            have hr3 : ruleUniform mn c mx sd = false := by
              rw [ruleUniform, decide_eq_false_iff_not]
              exact hb3
            have hr4 : ruleNormal mn c mx sd = false := by
              rw [ruleNormal, decide_eq_false_iff_not]
              exact hb4
            rw [cashFlowDist, if_neg hb1, if_neg hb2, if_neg hb3, if_neg hb4]
            simp [hr1, hr2, hr3, hr4]

/-- C5 counterexample: with the stream whose normal draws return the mean
they were asked for, the production route on (demandMin 0, demandMode 5,
demandMax 0, demandSD 1) produces demand samples equal to 0 — the mean
argument the code passes is demandMax = 0 — while a draw from
Normal(demandMode, demandSD) under the same stream would equal 5. -/
theorem production_normal_branch_mean_cex :
    demandHead (productionDemandDist rngMean 1 0 5 0 1) = 0 ∧
    rngMean.normal 5 1 0 = 5 ∧ ((0:ℚ) ≠ (5:ℚ)) := by
  refine ⟨?_, by norm_num [rngMean], by norm_num⟩
  rw [productionDemandDist]
  rw [if_neg (by simp [is_triangular]), if_neg (by simp [is_triangular]),
    if_neg (by norm_num), if_pos (by norm_num)]
  rw [demandHead, normalList]
  rw [show (1000:ℕ) = 999 + 1 from rfl, List.range_succ_eq_map]
  simp [rngMean]

/-- C5 amended: in the normal branch (min 0, max 0, sd > 0) the production
simulator draws demand from Normal(demandMax, demandSD) = Normal(0, demandSD)
— its code passes demandMax, not demandMode, as the mean — for every
demandMode; the cash-flow simulator draws from Normal(mean, sd) with the
given mean, as the claim states. -/
theorem normal_branch_means (rng : RNG) (fuel : ℕ) (dMode mean sd : ℚ) (h : 0 < sd) :
    productionDemandDist rng fuel 0 dMode 0 sd = some (.ok (normalList rng 0 sd 0 1000, 1000)) ∧
    cashFlowDist rng fuel 0 mean 0 sd = some (.ok (normalList rng mean sd 0 1000, 1000)) := by
  constructor
  · rw [productionDemandDist, if_neg (by simp [is_triangular]),
      if_neg (by simp [is_triangular]), if_neg (by simp), if_pos ⟨rfl, rfl, h⟩]
  · rw [cashFlowDist, if_neg (by simp [is_triangular]),
      if_neg (by simp [is_triangular]), if_neg (by simp), if_pos ⟨rfl, rfl, h⟩]

/-- Witness for C5's amended theorem at demandMode 5, mean 7, sd 1 on the
all-zero stream. -/
theorem normal_branch_means_witness :
    productionDemandDist rngZero 1 0 5 0 1 = some (.ok (normalList rngZero 0 1 0 1000, 1000)) ∧
    cashFlowDist rngZero 1 0 7 0 1 = some (.ok (normalList rngZero 7 1 0 1000, 1000)) :=
  normal_branch_means rngZero 1 5 7 1 (by norm_num)

/-- C6: per-input determinism for every endpoint — two invocations of each
handler of distributions.py and simulations.py (distribution_random,
simulation_random_values, distribution_triangular, distribution_uniform,
distribution_normal, distribution_truncated_normal, simulation_production,
simulation_cash_flow, marketing — every route handler that draws
randomness; the staffing optimization route has no generator) against
arbitrary, arbitrarily different ambient generator states produce identical
outputs, because each invocation builds its own generator from the fixed
seed 42 and shares no state with any other request. -/
theorem endpoints_deterministic_per_input (mkRng : ℕ → RNG) (a b : RNG) (sq : ℚ → ℚ)
    (fuel : ℕ) (mn mean mx sd uc up sp dmn dmo dmx dsd fc q r d s mp1 mp2 mp3 mp4 mp5 : ℚ)
    (p im ix : ℤ) :
    (distributionRandomEndpoint mkRng a fuel mn mean mx sd =
      distributionRandomEndpoint mkRng b fuel mn mean mx sd) ∧
    (simulationRandomValuesEndpoint mkRng a fuel mn mean mx sd =
      simulationRandomValuesEndpoint mkRng b fuel mn mean mx sd) ∧
    (distTriangularEndpoint mkRng a mn mean mx = distTriangularEndpoint mkRng b mn mean mx) ∧
    (distUniformEndpoint mkRng a im ix = distUniformEndpoint mkRng b im ix) ∧
    (distNormalEndpoint mkRng a mean sd = distNormalEndpoint mkRng b mean sd) ∧
    (distTruncatedNormalEndpoint mkRng a fuel mn mean mx sd =
      distTruncatedNormalEndpoint mkRng b fuel mn mean mx sd) ∧
    (productionEndpoint mkRng a sq fuel uc up sp dmn dmo dmx dsd fc q =
      productionEndpoint mkRng b sq fuel uc up sp dmn dmo dmx dsd fc q) ∧
    (cashFlowEndpoint mkRng a sq fuel p fc mn mean mx sd =
      cashFlowEndpoint mkRng b sq fuel p fc mn mean mx sd) ∧
    (marketingEndpoint mkRng a r d s mp1 mp2 mp3 mp4 mp5 =
      marketingEndpoint mkRng b r d s mp1 mp2 mp3 mp4 mp5) :=
  ⟨rfl, rfl, rfl, rfl, rfl, rfl, rfl, rfl, rfl⟩

/-- C7: for every generator (hence before any draw — the result is the same
for every stream), square root, fuel and distribution parameters, a cash-flow
call with periodsPerYear ≤ 0 answers the 400 error naming the violated
constraint, and the result does not depend on the generator. -/
theorem cash_flow_rejects_nonpositive_periods (rng rng' : RNG) (sq : ℚ → ℚ) (fuel : ℕ)
    (p : ℤ) (fc mn mean mx sd : ℚ) (hp : p ≤ 0) :
    cashFlowCore rng sq fuel p fc mn mean mx sd = some (.error periodsErr) ∧
    cashFlowCore rng sq fuel p fc mn mean mx sd =
      cashFlowCore rng' sq fuel p fc mn mean mx sd := by
  constructor
  · rw [cashFlowCore, if_pos hp]
  · rw [cashFlowCore, if_pos hp, cashFlowCore, if_pos hp]

/-- Witness for C7 at periodsPerYear = 0 with two different concrete
streams. -/
theorem cash_flow_rejects_nonpositive_periods_witness :
    cashFlowCore rngZero (fun _ => 0) 1 0 0 0 0 0 0 = some (.error periodsErr) ∧
    cashFlowCore rngZero (fun _ => 0) 1 0 0 0 0 0 0 =
      cashFlowCore rngMean (fun _ => 0) 1 0 0 0 0 0 0 :=
  cash_flow_rejects_nonpositive_periods rngZero rngMean (fun _ => 0) 1 0 0 0 0 0 0
    (by norm_num)

/-- C8: the statistics aggregator's valueAtRisk is the 5th percentile of the
trial vector negated and floored at 0, hence never negative; a trial vector
whose 5th percentile is non-negative yields valueAtRisk = 0. -/
theorem value_at_risk_nonnegative (sq : ℚ → ℚ) (xs : List ℚ) :
    0 ≤ (generate_stats sq xs).valueAtRisk ∧
    (generate_stats sq xs).valueAtRisk = max 0 (-(percentile 5 xs)) ∧
    (0 ≤ percentile 5 xs → (generate_stats sq xs).valueAtRisk = 0) := by
  have hv : (generate_stats sq xs).valueAtRisk = max 0 (-(percentile 5 xs)) := rfl
  refine ⟨hv ▸ le_max_left 0 _, hv, fun h5 => ?_⟩
  rw [hv, max_eq_left (neg_nonpos.mpr h5)]

/-- C9: distribution_random and simulation_random_values are extensionally
equal — on every input they yield the same distribution label and value
list, and error on exactly the same inputs. -/
theorem distribution_random_eq_simulation_random_values (rng : RNG) (fuel : ℕ)
    (mn mean mx sd : ℚ) :
    distributionRandomCore rng fuel mn mean mx sd =
      simulationRandomValuesCore rng fuel mn mean mx sd :=
  rfl

/-- C10: with retentionRate and discountRate in [0, 1], the marketing route
rejects stDev exactly when stDev < 0: every stDev ≥ 0 — including values
greater than 1 — passes validation and the simulation (whose yearly draws
use |stDev·meanProfit| as standard deviation) runs. -/
theorem marketing_stdev_validation (rng : RNG) (r d s mp1 mp2 mp3 mp4 mp5 : ℚ)
    (hr : is_percent r) (hd : is_percent d) :
    (0 ≤ s → marketingCore rng r d s mp1 mp2 mp3 mp4 mp5 =
      .ok (marketingBody rng r d s mp1 mp2 mp3 mp4 mp5)) ∧
    (s < 0 → marketingCore rng r d s mp1 mp2 mp3 mp4 mp5 = .error stDevErr) := by
  constructor
  · intro hs
    rw [marketingCore, if_neg (not_not_intro hr), if_neg (not_not_intro hd),
      if_neg (not_lt.mpr hs)]
  · intro hs
    rw [marketingCore, if_neg (not_not_intro hr), if_neg (not_not_intro hd), if_pos hs]

/-- Witness for C10 with stDev = 2 (greater than 1): validation passes and
the simulation runs. -/
theorem marketing_stdev_validation_witness :
    ((0:ℚ) ≤ 2 → marketingCore rngZero 1 1 2 1 1 1 1 1 =
      .ok (marketingBody rngZero 1 1 2 1 1 1 1 1)) ∧
    ((2:ℚ) < 0 → marketingCore rngZero 1 1 2 1 1 1 1 1 = .error stDevErr) :=
  marketing_stdev_validation rngZero 1 1 2 1 1 1 1 1 (by norm_num [is_percent])
    (by norm_num [is_percent])
